import Mathlib

/-!
Verification of the Hogwarts experiment coordinator (guess-the-number gRPC
server). The definitions below are a shallow embedding of the consolidated
server in the Go source: the `Server` struct, its `Connect`
registration/disconnect paths, `processGuess`, `StartExperiment`,
`EndExperiment`, `SendResponse`, `Leaderboard` and `WaitingList` methods.
Go maps are embedded as association lists over `String` keys; the random
target of `StartExperiment` and the success of an outbound stream send are
passed in as explicit parameters.
-/

namespace Hogwarts

/-- Association-list embedding of a Go `map[string]α`. -/
abbrev AssocMap (α : Type) := List (String × α)

/-- Go map read: `m[k]` with presence flag, as an `Option`. -/
def lookupA {α : Type} (k : String) : AssocMap α → Option α
  | [] => none
  | p :: rest => if p.1 = k then some p.2 else lookupA k rest

/-- Go `delete(m, k)`. -/
def deleteA {α : Type} (k : String) : AssocMap α → AssocMap α
  | [] => []
  | p :: rest => if p.1 = k then deleteA k rest else p :: deleteA k rest

/-- Go map write `m[k] = v`: the new binding shadows and drops any old one. -/
def insertA {α : Type} (k : String) (v : α) (m : AssocMap α) : AssocMap α :=
  (k, v) :: deleteA k m

/-- Per-connection state stored by the server (Go struct `Client`):
username, cumulative guess count, last submitted guess. The gRPC stream
handle is owned by the connection handler and carries no coordinator state. -/
structure Client where
  username : String
  guesses : Nat
  lastGuess : Int
  deriving Repr, DecidableEq

/-- The coordinator state (Go struct `Server`): registered clients, the
session target, the running flag, the leaderboard, and the table of guesses
awaiting a manual response. -/
structure Server where
  clients : AssocMap Client
  targetNum : Int
  experiment : Bool
  leaderboard : AssocMap Nat
  pendingResponses : AssocMap Int
  deriving Repr, DecidableEq

/-- Typed rendering of the `fmt.Errorf` failures the server returns. -/
inductive ServerError where
  | emptyUsername
  | clientNotFound (username : String)
  | noPendingResponse (username : String)
  | experimentAlreadyStarted
  | noActiveExperiment
  | sendFailed (username : String)
  deriving Repr, DecidableEq

/-- Result of a coordinator call: the post-state, the notifications the call
attempted to send on client streams (recipient, message) in order, and the
value or error returned to the caller. -/
structure OpResult (α : Type) where
  state : Server
  sent : List (String × String)
  result : Except ServerError α
  deriving Repr

/-- `NewExperimentServer`: empty registry, leaderboard and pending table;
`targetNum` and `experiment` take Go zero values. -/
def NewExperimentServer : Server :=
  { clients := []
    targetNum := 0
    experiment := false
    leaderboard := []
    pendingResponses := [] }

/-- Registration step of `Connect` (after the username handshake): rejects an
empty username, otherwise stores a fresh `Client` under the username —
silently replacing any existing entry — and initialises the leaderboard slot
to 0 only when absent. -/
def connectRegister (s : Server) (username : String) : Server × Except ServerError Unit :=
  if username = "" then
    (s, .error .emptyUsername)
  else
    ({ s with
        clients := insertA username { username := username, guesses := 0, lastGuess := 0 } s.clients
        leaderboard :=
          match lookupA username s.leaderboard with
          | some _ => s.leaderboard
          | none => insertA username 0 s.leaderboard },
      .ok ())

/-- Cleanup step of `Connect` after the receive loop ends (stream error or
close): the code deletes the username only from `pendingResponses`; the
`clients` and `leaderboard` entries are left in place. -/
def connectDisconnect (s : Server) (username : String) : Server :=
  { s with pendingResponses := deleteA username s.pendingResponses }

/-- `processGuess`: if the username is unregistered, log and return with no
state change; otherwise increment that client's guess counter, record the
last guess, and store the guess as the pending response, overwriting any
previous pending value. No phase check and no notification happen here. -/
def processGuess (s : Server) (username : String) (guess : Int) : Server :=
  match lookupA username s.clients with
  | none => s
  | some c =>
      { s with
        clients := insertA username { c with guesses := c.guesses + 1, lastGuess := guess } s.clients
        pendingResponses := insertA username guess s.pendingResponses }

/-- The announcement `StartExperiment` sends to every client. -/
def startMessage : String := "Experiment started! Guess a number between 1 and 100."

/-- `StartExperiment`: fails when an experiment is already running; otherwise
sets the target to `rand.Intn(100) + 1` — embedded as `randVal % 100 + 1` for
the caller-supplied random draw — flips the running flag, and broadcasts the
announcement to every registered client (delivery failures are only logged). -/
def StartExperiment (s : Server) (randVal : Nat) : OpResult String :=
  if s.experiment then
    { state := s, sent := [], result := .error .experimentAlreadyStarted }
  else
    { state := { s with targetNum := (randVal % 100 : Nat) + 1, experiment := true }
      sent := s.clients.map (fun p => (p.1, startMessage))
      result := .ok "Experiment started!" }

/-- Leaderboard text built by `EndExperiment`. -/
def leaderboardText (lb : AssocMap Nat) : String :=
  lb.foldl (fun acc p => acc ++ p.1 ++ ": " ++ toString p.2 ++ " attempts\n")
    "Final leaderboard:\n"

/-- `EndExperiment`: fails when no experiment is running; otherwise notifies
every client, clears the running flag, the target and the whole pending
table (the leaderboard is untouched), and returns the leaderboard text. -/
def EndExperiment (s : Server) : OpResult String :=
  if s.experiment then
    { state := { s with experiment := false, targetNum := 0, pendingResponses := [] }
      sent := s.clients.map (fun p => (p.1, "Experiment ended!"))
      result := .ok (leaderboardText s.leaderboard) }
  else
    { state := s, sent := [], result := .error .noActiveExperiment }

/-- The hint message `SendResponse` computes for a pending guess. -/
def responseMessage (guess target : Int) : String :=
  if guess = target then "Correct!"
  else if guess < target then "Higher!"
  else "Lower!"

/-- `SendResponse`: fails when the username is unregistered or has no pending
guess. Otherwise compares the pending guess to the target: on equality the
leaderboard count is incremented by 1 (a missing Go map entry reads as 0);
the pending entry is deleted in every branch, then exactly one notification
with the outcome message is sent to that client. `sendOk` is whether that
stream send succeeds; on failure the call returns an error, with the state
mutations already applied. -/
def SendResponse (s : Server) (username : String) (sendOk : Bool) : OpResult String :=
  match lookupA username s.clients with
  | none => { state := s, sent := [], result := .error (.clientNotFound username) }
  | some _ =>
      match lookupA username s.pendingResponses with
      | none => { state := s, sent := [], result := .error (.noPendingResponse username) }
      | some guess =>
          let message := responseMessage guess s.targetNum
          let lb :=
            if guess = s.targetNum then
              insertA username ((lookupA username s.leaderboard).getD 0 + 1) s.leaderboard
            else s.leaderboard
          let afterState :=
            { s with leaderboard := lb, pendingResponses := deleteA username s.pendingResponses }
          if sendOk then
            { state := afterState, sent := [(username, message)], result := .ok "Response sent to client" }
          else
            { state := afterState, sent := [(username, message)], result := .error (.sendFailed username) }

/-- `Leaderboard` RPC: the (username, wins) entries. -/
def LeaderboardEntries (s : Server) : List (String × Nat) :=
  s.leaderboard

/-- `WaitingList` RPC: the usernames currently awaiting a response. -/
def WaitingList (s : Server) : List String :=
  s.pendingResponses.map (fun p => p.1)

/-- A client's leaderboard count as Go reads it (missing entry = 0). -/
def lbCount (username : String) (s : Server) : Nat :=
  (lookupA username s.leaderboard).getD 0

/-- One coordinator call, for reasoning about whole call sequences. -/
inductive Op where
  | opRegister (username : String)
  | opDisconnect (username : String)
  | opGuess (username : String) (value : Int)
  | opStart (randVal : Nat)
  | opEnd
  | opGrade (username : String) (sendOk : Bool)
  deriving Repr, DecidableEq

/-- The state transition of one coordinator call. -/
def applyOp (s : Server) : Op → Server
  | .opRegister u => (connectRegister s u).1
  | .opDisconnect u => connectDisconnect s u
  | .opGuess u v => processGuess s u v
  | .opStart r => (StartExperiment s r).state
  | .opEnd => (EndExperiment s).state
  | .opGrade u ok => (SendResponse s u ok).state

/-- The state after a whole sequence of coordinator calls. -/
def applyOps (s : Server) (ops : List Op) : Server :=
  ops.foldl applyOp s

/-- Concrete state: client "A" registered on a fresh server. -/
def sA : Server := (connectRegister NewExperimentServer "A").1

/-- Concrete state: clients "A" and "B" registered. -/
def sAB : Server := (connectRegister sA "B").1

/-- Concrete state: "A" registered, session running with target 42. -/
def sRun : Server := (StartExperiment sA 41).state

/-- Concrete state: running with target 42, "A" has pending guess 42. -/
def sPend42 : Server := processGuess sRun "A" 42

/-- Concrete state: running with target 42, "A" has pending guess 50. -/
def sPend50 : Server := processGuess sRun "A" 50

/-- Concrete state: "A" and "B" registered, running with target 42. -/
def sRunAB : Server := (StartExperiment sAB 41).state

/-- Concrete state: both "A" (guess 50) and "B" (guess 42) have pending guesses. -/
def sGuessedAB : Server := processGuess (processGuess sRunAB "A" 50) "B" 42

/-- Concrete state: `sGuessedAB` after client "A" disconnects. -/
def sDropA : Server := connectDisconnect sGuessedAB "A"

theorem lookupA_insert_self {α : Type} (k : String) (v : α) (m : AssocMap α) :
    lookupA k (insertA k v m) = some v := by
  simp [lookupA, insertA]

theorem lookupA_delete_self {α : Type} (k : String) (m : AssocMap α) :
    lookupA k (deleteA k m) = none := by
  induction m with
  | nil => rfl
  | cons p rest ih =>
    by_cases hp : p.1 = k
    · simpa [deleteA, hp] using ih
    · simpa [deleteA, lookupA, hp] using ih

theorem lookupA_delete_ne {α : Type} {k k' : String} (h : k' ≠ k) (m : AssocMap α) :
    lookupA k' (deleteA k m) = lookupA k' m := by
  induction m with
  | nil => rfl
  | cons p rest ih =>
    by_cases hp : p.1 = k
    · have hne : ¬ p.1 = k' := fun hk => h ((hk.symm.trans hp).symm ▸ rfl)
      simp [deleteA, lookupA, hp, hne, Ne.symm h, ih]
    · by_cases hk : p.1 = k'
      · simp [deleteA, lookupA, hp, hk, h]
      · simp [deleteA, lookupA, hp, hk, ih]

theorem lookupA_insert_ne {α : Type} {k k' : String} (h : k' ≠ k) (v : α) (m : AssocMap α) :
    lookupA k' (insertA k v m) = lookupA k' m := by
  have hne : ¬ k = k' := fun hk => h hk.symm
  simp only [insertA, lookupA, hne, if_false]
  exact lookupA_delete_ne h m

/-- Characterisation of `SendResponse` when the client is registered and has
a pending guess. -/
theorem SendResponse_eq (s : Server) (u : String) (ok : Bool) (c : Client) (g : Int)
    (hc : lookupA u s.clients = some c) (hp : lookupA u s.pendingResponses = some g) :
    SendResponse s u ok =
      { state :=
          { s with
            leaderboard :=
              if g = s.targetNum then
                insertA u ((lookupA u s.leaderboard).getD 0 + 1) s.leaderboard
              else s.leaderboard
            pendingResponses := deleteA u s.pendingResponses }
        sent := [(u, responseMessage g s.targetNum)]
        result := if ok then .ok "Response sent to client" else .error (.sendFailed u) } := by
  cases ok <;> simp [SendResponse, hc, hp]

/-- C1 counterexample: on a fresh server with "A" registered and no session
started (`experiment = false`), `processGuess "A" 50` does not fail with
`SessionNotRunning`; it succeeds and records 50 as the pending guess,
refuting the claim that submissions outside the Running phase are rejected. -/
theorem C1_counterexample :
    sA.experiment = false ∧
    lookupA "A" (processGuess sA "A" 50).pendingResponses = some 50 ∧
    processGuess sA "A" 50 ≠ sA := by
  refine ⟨rfl, rfl, ?_⟩
  decide

/-- C1 (amended): `processGuess` performs no session-phase check at all: for
every state — whatever the `experiment` flag — a guess from a registered
identity is recorded as its pending guess, and the only guarded condition is
an unregistered identity, which leaves the state unchanged (no error is
returned to the submitting client in either case). -/
theorem C1_amended_no_phase_check (s : Server) (u : String) (g : Int) :
    (∀ c, lookupA u s.clients = some c →
      lookupA u (processGuess s u g).pendingResponses = some g) ∧
    (lookupA u s.clients = none → processGuess s u g = s) := by
  constructor
  · intro c hc
    simp [processGuess, hc, lookupA_insert_self]
  · intro hc
    simp [processGuess, hc]

/-- Witness for C1 (amended) at the concrete not-Running state `sA`. -/
theorem C1_amended_no_phase_check_witness :
    lookupA "A" (processGuess sA "A" 50).pendingResponses = some 50 :=
  (C1_amended_no_phase_check sA "A" 50).1
    { username := "A", guesses := 0, lastGuess := 0 } (by decide)

/-- C3 counterexample: with "A" already registered (and one guess made, so
its counter is 1), a second `connectRegister "A"` does not fail with
`AlreadyConnected`: it returns success and replaces the existing entry with
a fresh zeroed client record. -/
theorem C3_counterexample :
    (connectRegister (processGuess sA "A" 5) "A").2 = .ok () ∧
    lookupA "A" (processGuess sA "A" 5).clients =
      some { username := "A", guesses := 1, lastGuess := 5 } ∧
    lookupA "A" (connectRegister (processGuess sA "A" 5) "A").1.clients =
      some { username := "A", guesses := 0, lastGuess := 0 } := by
  refine ⟨rfl, ?_, ?_⟩ <;> decide

/-- C3 (amended): registration never fails with `AlreadyConnected`: for every
non-empty identity it succeeds, silently replacing any existing entry for
that identity with a fresh zeroed client record (the empty identity is the
only rejected input, and it leaves the state unchanged). -/
theorem C3_amended_register_overwrites (s : Server) (u : String) (h : u ≠ "") :
    (connectRegister s u).2 = .ok () ∧
    lookupA u (connectRegister s u).1.clients =
      some { username := u, guesses := 0, lastGuess := 0 } := by
  simp [connectRegister, h, lookupA_insert_self]

/-- Witness for C3 (amended), re-registering the already-registered "A". -/
theorem C3_amended_register_overwrites_witness :
    (connectRegister sA "A").2 = .ok () ∧
    lookupA "A" (connectRegister sA "A").1.clients =
      some { username := "A", guesses := 0, lastGuess := 0 } :=
  C3_amended_register_overwrites sA "A" (by decide)

/-- C8: for a registered identity, `processGuess` increments that client's
guess counter by one, records the value as its last guess, stores the value
as its unique pending guess (overwriting whatever pending value was there),
and leaves every other identity's pending entry unchanged. -/
theorem C8_submit_records_last_guess (s : Server) (u : String) (g : Int) (c : Client)
    (hc : lookupA u s.clients = some c) :
    lookupA u (processGuess s u g).clients =
      some { c with guesses := c.guesses + 1, lastGuess := g } ∧
    lookupA u (processGuess s u g).pendingResponses = some g ∧
    ∀ v, v ≠ u → lookupA v (processGuess s u g).pendingResponses = lookupA v s.pendingResponses := by
  refine ⟨?_, ?_, ?_⟩
  · simp [processGuess, hc, lookupA_insert_self]
  · simp [processGuess, hc, lookupA_insert_self]
  · intro v hv
    simp only [processGuess, hc]
    exact lookupA_insert_ne hv _ _

/-- Witness for C8: "A" overwrites its pending 7 with 42, counter reaches 2. -/
theorem C8_submit_records_last_guess_witness :
    lookupA "A" (processGuess (processGuess sA "A" 7) "A" 42).clients =
      some { username := "A", guesses := 2, lastGuess := 42 } ∧
    lookupA "A" (processGuess (processGuess sA "A" 7) "A" 42).pendingResponses = some 42 :=
  ⟨(C8_submit_records_last_guess (processGuess sA "A" 7) "A" 42
      { username := "A", guesses := 1, lastGuess := 7 } (by decide)).1,
   (C8_submit_records_last_guess (processGuess sA "A" 7) "A" 42
      { username := "A", guesses := 1, lastGuess := 7 } (by decide)).2.1⟩

/-- C2: for a registered identity with a pending guess, `SendResponse`
removes the pending entry whatever the send outcome and whatever the
comparison branch, so an immediate second `SendResponse` for the same
identity fails with `NoPendingGuess` (embedded as `noPendingResponse`). -/
theorem C2_grade_consumes_pending (s : Server) (u : String) (ok1 ok2 : Bool) (c : Client)
    (g : Int) (hc : lookupA u s.clients = some c) (hp : lookupA u s.pendingResponses = some g) :
    lookupA u (SendResponse s u ok1).state.pendingResponses = none ∧
    (SendResponse (SendResponse s u ok1).state u ok2).result =
      .error (.noPendingResponse u) := by
  rw [SendResponse_eq s u ok1 c g hc hp]
  constructor
  · exact lookupA_delete_self u s.pendingResponses
  · simp [SendResponse, hc, lookupA_delete_self]

/-- Witness for C2: grading "A" at `sPend42` consumes the entry; grading
again fails. -/
theorem C2_grade_consumes_pending_witness :
    lookupA "A" (SendResponse sPend42 "A" true).state.pendingResponses = none ∧
    (SendResponse (SendResponse sPend42 "A" true).state "A" true).result =
      .error (.noPendingResponse "A") :=
  C2_grade_consumes_pending sPend42 "A" true true
    { username := "A", guesses := 1, lastGuess := 42 } 42 (by decide) (by decide)

/-- C4: while an experiment is running, `StartExperiment` fails with
`AlreadySessionActive` (embedded as `experimentAlreadyStarted`), sends
nothing, and returns the state completely unchanged — in particular the
target value is not mutated. -/
theorem C4_start_while_running_rejected (s : Server) (r : Nat) (h : s.experiment = true) :
    StartExperiment s r =
      { state := s, sent := [], result := .error .experimentAlreadyStarted } ∧
    (StartExperiment s r).state.targetNum = s.targetNum := by
  constructor
  · simp [StartExperiment, h]
  · simp [StartExperiment, h]

/-- Witness for C4 at the running state `sRun`. -/
theorem C4_start_while_running_rejected_witness :
    StartExperiment sRun 7 =
      { state := sRun, sent := [], result := .error .experimentAlreadyStarted } ∧
    (StartExperiment sRun 7).state.targetNum = sRun.targetNum :=
  C4_start_while_running_rejected sRun 7 (by decide)

/-- C5: for a registered identity with pending guess `g`, grading while the
session runs sends exactly one notification, to that identity, whose message
is "Correct!" when `g` equals the target, "Higher!" when `g` is below the
target, and "Lower!" when `g` is above it. -/
theorem C5_grade_outcome_message (s : Server) (u : String) (c : Client) (g : Int)
    (hc : lookupA u s.clients = some c) (hp : lookupA u s.pendingResponses = some g)
    (hrun : s.experiment = true) :
    (SendResponse s u true).sent =
      [(u, if g = s.targetNum then "Correct!"
           else if g < s.targetNum then "Higher!" else "Lower!")] := by
  rw [SendResponse_eq s u true c g hc hp]
  simp [responseMessage]

/-- Witness for C5: target 42, pending guess 50 → one "Lower!" to "A". -/
theorem C5_grade_outcome_message_witness :
    (SendResponse sPend50 "A" true).sent = [("A", "Lower!")] := by
  have h := C5_grade_outcome_message sPend50 "A"
    { username := "A", guesses := 1, lastGuess := 50 } 50 (by decide) (by decide) (by decide)
  rw [h]
  decide

/-- No single coordinator call decreases any identity's leaderboard count. -/
theorem lbCount_le_applyOp (s : Server) (op : Op) (w : String) :
    lbCount w s ≤ lbCount w (applyOp s op) := by
  cases op with
  | opRegister u =>
      by_cases hu : u = ""
      · simp [applyOp, connectRegister, hu]
      · cases h : lookupA u s.leaderboard with
        | some n => simp [applyOp, connectRegister, hu, h, lbCount]
        | none =>
            by_cases hw : w = u
            · subst hw
              simp [applyOp, connectRegister, hu, h, lbCount]
            · simp [applyOp, connectRegister, hu, h, lbCount, lookupA_insert_ne hw]
  | opDisconnect u => simp [applyOp, connectDisconnect, lbCount]
  | opGuess u v =>
      cases h : lookupA u s.clients with
      | none => simp [applyOp, processGuess, h]
      | some c => simp [applyOp, processGuess, h, lbCount]
  | opStart r =>
      by_cases h : s.experiment <;> simp [applyOp, StartExperiment, h, lbCount]
  | opEnd =>
      by_cases h : s.experiment <;> simp [applyOp, EndExperiment, h, lbCount]
  | opGrade u ok =>
      simp only [applyOp]
      cases hc : lookupA u s.clients with
      | none => simp [SendResponse, hc]
      | some c =>
          cases hp : lookupA u s.pendingResponses with
          | none => simp [SendResponse, hc, hp]
          | some g =>
              rw [SendResponse_eq s u ok c g hc hp]
              by_cases hg : g = s.targetNum
              · by_cases hw : w = u
                · subst hw
                  simp [lbCount, hg, lookupA_insert_self]
                · simp [lbCount, hg, lookupA_insert_ne hw]
              · simp [lbCount, hg]

/-- No sequence of coordinator calls decreases any leaderboard count. -/
theorem lbCount_le_applyOps (w : String) :
    ∀ (ops : List Op) (s : Server), lbCount w s ≤ lbCount w (applyOps s ops)
  | [], _ => le_refl _
  | op :: ops, s =>
      le_trans (lbCount_le_applyOp s op w) (lbCount_le_applyOps w ops (applyOp s op))

/-- C6: grading a correct pending guess increments exactly that identity's
leaderboard count by exactly 1 and leaves every other identity's count
unchanged; moreover, over every sequence of coordinator calls, every
identity's count is monotonically non-decreasing — in particular no call
(including `EndExperiment`) ever decrements or resets a count. -/
theorem C6_correct_guess_increments_one (s : Server) (u : String) (sendOk : Bool)
    (c : Client) (g : Int) (hc : lookupA u s.clients = some c)
    (hp : lookupA u s.pendingResponses = some g) (heq : g = s.targetNum) :
    lbCount u (SendResponse s u sendOk).state = lbCount u s + 1 ∧
    (∀ v, v ≠ u → lbCount v (SendResponse s u sendOk).state = lbCount v s) ∧
    (∀ (t : Server) (ops : List Op) (w : String), lbCount w t ≤ lbCount w (applyOps t ops)) := by
  refine ⟨?_, ?_, fun t ops w => lbCount_le_applyOps w ops t⟩
  · rw [SendResponse_eq s u sendOk c g hc hp]
    simp [lbCount, heq, lookupA_insert_self]
  · intro v hv
    rw [SendResponse_eq s u sendOk c g hc hp]
    simp [lbCount, heq, lookupA_insert_ne hv]

/-- Witness for C6: grading the correct pending 42 at `sPend42` takes
leaderboard["A"] from 0 to 1. -/
theorem C6_correct_guess_increments_one_witness :
    lbCount "A" (SendResponse sPend42 "A" true).state = lbCount "A" sPend42 + 1 :=
  (C6_correct_guess_increments_one sPend42 "A" true
    { username := "A", guesses := 1, lastGuess := 42 } 42
    (by decide) (by decide) (by decide)).1

/-- C7: while an experiment is running, `EndExperiment` empties the whole
pending table (so `WaitingList` then returns the empty list), leaves the
leaderboard untouched, and returns the final leaderboard text to the caller;
when no experiment is running it fails with `NoActiveSession` (embedded as
`noActiveExperiment`) and changes nothing. -/
theorem C7_end_session (s : Server) :
    (s.experiment = true →
      (EndExperiment s).state.pendingResponses = [] ∧
      WaitingList (EndExperiment s).state = [] ∧
      (EndExperiment s).state.leaderboard = s.leaderboard ∧
      (EndExperiment s).result = .ok (leaderboardText s.leaderboard)) ∧
    (s.experiment = false →
      (EndExperiment s).result = .error .noActiveExperiment ∧
      (EndExperiment s).state = s) := by
  constructor
  · intro h
    simp [EndExperiment, WaitingList, h]
  · intro h
    simp [EndExperiment, h]

/-- Witness for C7 at the running state `sPend42` and the idle state `sA`. -/
theorem C7_end_session_witness :
    WaitingList (EndExperiment sPend42).state = [] ∧
    (EndExperiment sPend42).state.leaderboard = sPend42.leaderboard ∧
    (EndExperiment sA).result = .error .noActiveExperiment :=
  ⟨((C7_end_session sPend42).1 (by decide)).2.1,
   ((C7_end_session sPend42).1 (by decide)).2.2.1,
   ((C7_end_session sA).2 (by decide)).1⟩

/-- C9 (code bug): after "A" and "B" both submit pending guesses and "A"
disconnects, the disconnect path clears "A"'s pending guess (so the waiting
list is exactly ["B"]) and grading "B" proceeds unaffected — but, contrary
to the claim and to the source's own comment "Remove the client after
disconnect", "A" is still registered: the clients-map lookup still returns
"A"'s record. -/
theorem C9_disconnect_keeps_registration :
    lookupA "A" sDropA.pendingResponses = none ∧
    WaitingList sDropA = ["B"] ∧
    lookupA "A" sDropA.clients =
      some { username := "A", guesses := 1, lastGuess := 50 } ∧
    (SendResponse sDropA "B" true).result = .ok "Response sent to client" ∧
    lbCount "B" (SendResponse sDropA "B" true).state = 1 := by
  refine ⟨?_, ?_, ?_, ?_, ?_⟩ <;> rfl

/-- C10: when the outcome notification fails to send, `SendResponse` returns
an error to the operator, but the mutations are not rolled back: the pending
entry is already removed and, for a correct guess, the leaderboard count is
already incremented. -/
theorem C10_failed_send_keeps_mutation (s : Server) (u : String) (c : Client) (g : Int)
    (hc : lookupA u s.clients = some c) (hp : lookupA u s.pendingResponses = some g) :
    (SendResponse s u false).result = .error (.sendFailed u) ∧
    lookupA u (SendResponse s u false).state.pendingResponses = none ∧
    (g = s.targetNum → lbCount u (SendResponse s u false).state = lbCount u s + 1) := by
  rw [SendResponse_eq s u false c g hc hp]
  refine ⟨rfl, lookupA_delete_self u s.pendingResponses, fun heq => ?_⟩
  simp [lbCount, heq, lookupA_insert_self]

/-- Witness for C10: at `sPend42` a failed send still consumes the guess and
credits the point. -/
theorem C10_failed_send_keeps_mutation_witness :
    (SendResponse sPend42 "A" false).result = .error (.sendFailed "A") ∧
    lookupA "A" (SendResponse sPend42 "A" false).state.pendingResponses = none ∧
    lbCount "A" (SendResponse sPend42 "A" false).state = lbCount "A" sPend42 + 1 := by
  have h := C10_failed_send_keeps_mutation sPend42 "A"
    { username := "A", guesses := 1, lastGuess := 42 } 42 (by decide) (by decide)
  exact ⟨h.1, h.2.1, h.2.2 (by decide)⟩

end Hogwarts
